import Mathlib

/-!
Shallow embedding of the device-synchronization subsystem of the
roon-volume-marantz extension: the per-receiver HTTP client
(`src/marantz-client.js`) and the volume coordinator
(`src/volume-control.js`).  JavaScript numbers are modelled as rationals
(every value arising in the volume paths is an integer or a half-integer,
exactly representable), JavaScript's `null`/`undefined`/string/number
status-field values as the inductive `JSVal`, and the stateful classes as
explicit state-passing functions.
-/

namespace Marantz

/-- A JavaScript value as it can appear in a parsed XML status field:
`null`, `undefined`, a string, or a number. -/
inductive JSVal where
  | jnull
  | jundef
  | jstr (s : String)
  | jnum (q : ℚ)
deriving DecidableEq, Repr

/-- JavaScript truthiness test, as used by `if (!volumeStr)` in
`parseVolume` (marantz-client.js line 97): `null`, `undefined`, the empty
string and the number `0` are falsy. -/
def JSVal.falsy : JSVal → Bool
  | .jnull => true
  | .jundef => true
  | .jstr s => s.isEmpty
  | .jnum q => q == 0

/-- Splits a leading run of decimal digits off a character list, returning
their values most-significant first together with the rest of the list. -/
def takeDigits : List Char → List ℕ × List Char
  | [] => ([], [])
  | c :: cs =>
    if c.isDigit then
      let (ds, rest) := takeDigits cs
      ((c.toNat - 48) :: ds, rest)
    else
      ([], c :: cs)

/-- Value of a most-significant-first digit list. -/
def digitsToNat (ds : List ℕ) : ℕ := ds.foldl (fun a d => 10 * a + d) 0

/-- JavaScript `parseFloat`, restricted to plain decimal notation
(optional sign, integer digits, optional fractional digits), which covers
every token the receiver protocol produces; exponent notation and
`Infinity` are not modelled.  Parses the longest numeric prefix after
skipping leading spaces and returns `none` for `NaN`. -/
def parseFloat (s : String) : Option ℚ :=
  let cs := s.toList.dropWhile (fun c => c = ' ')
  let signAndRest :=
    match cs with
    | '-' :: rest => (true, rest)
    | '+' :: rest => (false, rest)
    | _ => (false, cs)
  let neg := signAndRest.1
  let ipRest := takeDigits signAndRest.2
  let ip := ipRest.1
  let fp :=
    match ipRest.2 with
    | '.' :: rest => (takeDigits rest).1
    | _ => []
  if ip = [] ∧ fp = [] then none
  else
    let mag : ℚ := (digitsToNat ip : ℚ) + (digitsToNat fp : ℚ) / ((10 : ℚ) ^ fp.length)
    some (if neg then -mag else mag)

/-- Rendering of a JavaScript number as a string (`String(n)`), restricted
to integers and half-integers — the only numeric values the receiver's
volume fields take. -/
def numToString (q : ℚ) : String :=
  if q.den = 1 then toString q.num
  else (if q < 0 then "-" else "") ++ toString (q.num.natAbs / 2) ++ ".5"

/-- JavaScript `String(v)` conversion as used in `parseVolume`
(marantz-client.js line 102). -/
def jsToString : JSVal → String
  | .jnull => "null"
  | .jundef => "undefined"
  | .jstr s => s
  | .jnum q => numToString q

/-- `MarantzClient.parseVolume` (marantz-client.js lines 95-120): falsy
inputs yield `null`; the sentinel `"--"` yields display volume `0`;
otherwise the decibel value is parsed with `parseFloat` (`NaN` yields
`null`) and converted to the display value by adding 80. -/
def parseVolume (volumeStr : JSVal) : Option ℚ :=
  if volumeStr.falsy then none
  else
    let str := jsToString volumeStr
    if str = "--" ∨ str = "" then some 0
    else
      match parseFloat str with
      | none => none
      | some dbValue => some (dbValue + 80)

/-- JavaScript `Math.round`: rounds to the nearest integer, with halves
rounded toward positive infinity. -/
def jsRound (q : ℚ) : ℤ := ⌊q + 1 / 2⌋

/-- JavaScript `Number.prototype.toFixed(0)`.  In `formatVolume` it is only
reached on values that are already exact integers (`rounded * 10` with
`rounded` a non-integer half-step), where every rounding convention
agrees. -/
def toFixed0 (q : ℚ) : String := toString (jsRound q)

/-- `MarantzClient.formatVolume` (marantz-client.js lines 128-138): rounds
the display value to the nearest 0.5, then renders whole numbers as their
integer digits and half-steps as the value times 10. -/
def formatVolume (displayValue : ℚ) : String :=
  let rounded : ℚ := (jsRound (displayValue * 2) : ℚ) / 2
  if rounded = (⌊rounded⌋ : ℚ) then
    toString ⌊rounded⌋
  else
    toFixed0 (rounded * 10)

/-- The display value actually encoded by `formatVolume`: the request
rounded to the nearest 0.5 (no clamping is performed anywhere in
`setVolume`/`formatVolume`). -/
def sentDisplayValue (displayValue : ℚ) : ℚ :=
  (jsRound (displayValue * 2) : ℚ) / 2

/-- `MarantzClient.setVolume` (marantz-client.js lines 143-146): the wire
command issued for an absolute volume request. -/
def setVolumeCommand (value : ℚ) : String :=
  "MV" ++ formatVolume value

/-- An event emitted by a `MarantzClient` through its `EventEmitter`
interface: `volumeChanged`, `muteChanged`, or `error`. -/
inductive ClientEvent where
  | volumeChanged (v : ℚ)
  | muteChanged (m : Bool)
  | errorEvent
deriving DecidableEq, Repr

/-- The mutable fields of a `MarantzClient` relevant to status handling
(marantz-client.js lines 14-17): the cached volume and mute (both start as
JS `null`, here `none`), the polling-interval handle, and the value the
installed `shouldSuppressUpdates` callback would return.  The source
stores that callback on the client (volume-control.js line 61 installs
`() => false`); it is kept here to record that `getStatus` never consults
it. -/
structure ClientState where
  currentVolume : Option ℚ
  currentMute : Option Bool
  pollInterval : Option ℕ
  shouldSuppressUpdates : Bool
deriving DecidableEq, Repr

/-- The `item` element of a parsed status document: each child's `value`
field is optional (`?.value` yields `undefined` when absent). -/
structure StatusItem where
  masterVolume : Option JSVal
  mute : Option JSVal
  power : Option JSVal
deriving DecidableEq, Repr

/-- Outcome of the fetch-and-parse prefix of `getStatus`: a transport
error, a non-ok HTTP status or an XML-parse throw all land in `failure`
(the catch block); otherwise the document either lacks an `item` element
or provides one. -/
inductive PollInput where
  | failure
  | noItem
  | item (it : StatusItem)
deriving DecidableEq, Repr

/-- The object returned by a successful `getStatus` call. -/
structure StatusResult where
  volume : Option ℚ
  mute : Bool
  power : Option JSVal
deriving DecidableEq, Repr

/-- `MarantzClient.getStatus` (marantz-client.js lines 42-87) as a state
transformer: given the cached state and the poll outcome it returns the
new state, the events emitted (in emission order), and the returned
value.  On failure the catch block emits `error` and returns `null`,
leaving all cached fields untouched.  On success, `volumeChanged` is
emitted when the parsed volume is non-null and differs from the cache,
and `muteChanged` when the parsed mute flag differs from the cache; the
suppression callback stored on the client is never consulted. -/
def getStatus (st : ClientState) (input : PollInput) :
    ClientState × List ClientEvent × Option StatusResult :=
  match input with
  | .failure => (st, [ClientEvent.errorEvent], none)
  | .noItem => (st, [], none)
  | .item it =>
    let volumeRaw := it.masterVolume.getD JSVal.jundef
    let volume := parseVolume volumeRaw
    let mute := it.mute == some (JSVal.jstr "on")
    let volUpd :=
      match volume with
      | some v =>
        if some v ≠ st.currentVolume then
          ({ st with currentVolume := some v }, [ClientEvent.volumeChanged v])
        else (st, ([] : List ClientEvent))
      | none => (st, ([] : List ClientEvent))
    let st1 := volUpd.1
    let muteUpd :=
      if some mute ≠ st1.currentMute then
        ({ st1 with currentMute := some mute }, [ClientEvent.muteChanged mute])
      else (st1, ([] : List ClientEvent))
    (muteUpd.1, volUpd.2 ++ muteUpd.2,
      some { volume := volume, mute := mute, power := it.power })

/-- `MarantzClient.startPolling` (marantz-client.js lines 173-185): stops
any previous interval, performs an immediate status check, and arms a
recurring interval timer (modelled by a fresh handle). -/
def startPolling (st : ClientState) (input : PollInput) (handle : ℕ) :
    ClientState × List ClientEvent :=
  let stopped := { st with pollInterval := none }
  let polled := getStatus stopped input
  ({ polled.1 with pollInterval := some handle }, polled.2.1)

/-- The `mode` field of a Roon volume request (volume-control.js line
126): `absolute`, `relative`, `relative_step`, or anything else (the
`default` arm of the switch). -/
inductive VolumeMode where
  | absolute
  | relative
  | relative_step
  | unknownMode
deriving DecidableEq, Repr

/-- An observable effect of the debounce-timer body in `handleSetVolume`
(volume-control.js lines 137-195): an HTTP command string handed to
`sendCommand`, an `update_state` push of a volume value to Roon, a
`setTimeout` arming a delayed `getStatus` call, the catch-block error
log, or the unknown-mode error log. -/
inductive CoordAction where
  | deviceCommand (cmd : String)
  | updateRoonVolume (v : ℚ)
  | scheduleStatusPoll (delayMs : ℕ)
  | logError
  | logUnknownMode
deriving DecidableEq, Repr

/-- Result of one debounce-timer firing: the client's `currentVolume`
field afterwards and the effects performed, in program order. -/
structure FireResult where
  clientVolume : Option ℚ
  actions : List CoordAction
deriving DecidableEq, Repr

/-- Shared tail of the `absolute` and `relative` arms (volume-control.js
lines 144-155 and 176-190): send `MV` + formatted target; on success,
when a Roon control object exists, write the target into
`client.currentVolume` and push it to Roon, then arm the 1000 ms verify
poll; on a thrown command failure skip to the catch block, which only
logs — no state is touched and nothing is retried. -/
def commitTarget (targetVolume : ℚ) (clientVolume : Option ℚ)
    (cmdOk : Bool) (hasControl : Bool) : FireResult :=
  if cmdOk then
    let upd :=
      if hasControl then
        (some targetVolume, [CoordAction.updateRoonVolume targetVolume])
      else (clientVolume, ([] : List CoordAction))
    { clientVolume := upd.1,
      actions := CoordAction.deviceCommand (setVolumeCommand targetVolume) ::
        (upd.2 ++ [CoordAction.scheduleStatusPoll 1000]) }
  else
    { clientVolume := clientVolume,
      actions := [CoordAction.deviceCommand (setVolumeCommand targetVolume),
        CoordAction.logError] }

/-- Body of the debounce `setTimeout` callback in `handleSetVolume`
(volume-control.js lines 137-195), as a function of the coalesced
request, the client's cached volume, whether the awaited command
succeeds (`cmdOk`), and whether a Roon control object exists for the
index (`hasControl`).  The `relative_step` arm sends `MVUP`/`MVDN`, arms
a 500 ms status poll, and returns before the optimistic-update block; a
zero step sends nothing but still arms the poll; a thrown step command
skips to the catch block. -/
def fireVolumeTimer (mode : VolumeMode) (value : ℚ) (clientVolume : Option ℚ)
    (cmdOk : Bool) (hasControl : Bool) : FireResult :=
  match mode with
  | .absolute => commitTarget value clientVolume cmdOk hasControl
  | .relative => commitTarget (clientVolume.getD 0 + value) clientVolume cmdOk hasControl
  | .relative_step =>
    if 0 < value then
      if cmdOk then
        { clientVolume := clientVolume,
          actions := [CoordAction.deviceCommand "MVUP",
            CoordAction.scheduleStatusPoll 500] }
      else
        { clientVolume := clientVolume,
          actions := [CoordAction.deviceCommand "MVUP", CoordAction.logError] }
    else if value < 0 then
      if cmdOk then
        { clientVolume := clientVolume,
          actions := [CoordAction.deviceCommand "MVDN",
            CoordAction.scheduleStatusPoll 500] }
      else
        { clientVolume := clientVolume,
          actions := [CoordAction.deviceCommand "MVDN", CoordAction.logError] }
    else
      { clientVolume := clientVolume,
        actions := [CoordAction.scheduleStatusPoll 500] }
  | .unknownMode =>
    { clientVolume := clientVolume, actions := [CoordAction.logUnknownMode] }

/-- State of the `VolumeControl` debounce layer.  `gen` counts
initialization generations: `initialize` (volume-control.js lines 28-45)
first calls `destroy`, which clears every entry of
`volumeDebounceTimers` and destroys every client, then rebuilds fresh
clients — the rebuilt array is the next generation.  `pending` is the
`volumeDebounceTimers` map as an association list
`(index, generation of the client captured by the timer closure, mode,
value)`; the closure captures `this.clients[index]` as of request time.
`clientVolume` is each current client's cached `currentVolume`. -/
structure CoordState where
  gen : ℕ
  pending : List (ℕ × ℕ × VolumeMode × ℚ)
  clientVolume : ℕ → Option ℚ

/-- An effect tagged with the generation of the client the timer closure
captured (`clientGen`) and the generation current when the effect ran
(`liveGen`); a command against a destroyed client would be one with
`clientGen < liveGen`. -/
structure TaggedAction where
  clientGen : ℕ
  liveGen : ℕ
  action : CoordAction
deriving DecidableEq, Repr

/-- Events driving the debounce layer: `request` is a call to
`handleSetVolume` (clear any pending timer for the index, arm a new
200 ms timer for this request — volume-control.js lines 131-197);
`reconfigure` is `updateSettings` → `initialize` → `destroy` + rebuild
(lines 246-276 and 28-45); `timerElapse` is the expiry of the armed
debounce timer for an index, parameterized by the command outcome and
by whether a Roon control object exists. -/
inductive CoordEvent where
  | request (index : ℕ) (mode : VolumeMode) (value : ℚ)
  | reconfigure
  | timerElapse (index : ℕ) (cmdOk : Bool) (hasControl : Bool)

/-- One step of the debounce layer.  A `request` replaces (never queues
behind) any pending timer for its index.  A `reconfigure` clears all
pending timers before the rebuild, so no old-generation timer survives.
A `timerElapse` for an index with no pending timer does nothing
(`clearTimeout` semantics); otherwise it removes the entry and runs the
timer body against the captured client. -/
def stepCoord (st : CoordState) (e : CoordEvent) : CoordState × List TaggedAction :=
  match e with
  | .request i m v =>
    ({ st with pending := (i, st.gen, m, v) :: st.pending.filter (fun p => p.1 != i) }, [])
  | .reconfigure =>
    ({ gen := st.gen + 1, pending := [], clientVolume := fun _ => none }, [])
  | .timerElapse i ok hc =>
    match st.pending.find? (fun p => p.1 == i) with
    | none => (st, [])
    | some p =>
      let r := fireVolumeTimer p.2.2.1 p.2.2.2 (st.clientVolume i) ok hc
      ({ st with
          pending := st.pending.filter (fun q => q.1 != i),
          clientVolume := fun j => if j = i then r.clientVolume else st.clientVolume j },
        r.actions.map (fun a => ⟨p.2.1, st.gen, a⟩))

/-- Runs the debounce layer over a list of events, collecting effects in
order. -/
def runCoord (st : CoordState) : List CoordEvent → CoordState × List TaggedAction
  | [] => (st, [])
  | e :: es =>
    ((runCoord (stepCoord st e).1 es).1,
      (stepCoord st e).2 ++ (runCoord (stepCoord st e).1 es).2)

/-- The HTTP command strings among a list of timer-body effects. -/
def commandsOf (acts : List CoordAction) : List String :=
  acts.filterMap (fun a =>
    match a with
    | CoordAction.deviceCommand c => some c
    | _ => none)

/-- The HTTP command strings among a list of tagged effects. -/
def deviceCommands (outs : List TaggedAction) : List String :=
  commandsOf (outs.map (fun o => o.action))

/-- Every pending debounce timer captured the current client
generation: the invariant `initialize` maintains, because `destroy`
clears the timer map before any rebuild. -/
def PendingLive (st : CoordState) : Prop :=
  ∀ p ∈ st.pending, p.2.1 = st.gen

/-- The target display value the timer body computes for an
absolute/relative request (volume-control.js lines 145 and 151-152);
the step and unknown arms compute no target. -/
def fireTarget (mode : VolumeMode) (value : ℚ) (clientVolume : Option ℚ) : ℚ :=
  match mode with
  | .absolute => value
  | .relative => clientVolume.getD 0 + value
  | _ => 0

/-- Claim C5: `formatVolume 50 = "50"`, `formatVolume 50.5 = "505"` and
`formatVolume 0 = "0"` — whole display numbers are transmitted as their
integer digits and half-steps as the value times 10. -/
theorem c5_encoding_format :
    formatVolume 50 = "50" ∧ formatVolume (101 / 2) = "505" ∧ formatVolume 0 = "0" := by
  refine ⟨?_, ?_, ?_⟩ <;> with_unfolding_all decide

/-- Claim C1, counterexample: composing `parseVolume` with `formatVolume`
is not the identity — `formatVolume` emits display-domain `MV` tokens
while `parseVolume` decodes decibel-domain status values and adds 80, so
decoding the token produced for display value 50 yields 130, not 50. -/
theorem c1_roundtrip_counterexample :
    parseVolume (JSVal.jstr (formatVolume 50)) = some 130 ∧
      parseVolume (JSVal.jstr (formatVolume 50)) ≠ some 50 := by
  refine ⟨?_, ?_⟩ <;> with_unfolding_all decide

/-- Claim C1, amended: the stable round-trip in the code runs through the
receiver's decibel channel: for every display value `v = n / 2` with
`n < 197` (that is, `v ∈ {0, 0.5, …, 98}`), decoding the decibel string
the receiver reports for `v` — the decimal rendering of `v − 80` —
yields exactly `v`. -/
theorem c1_db_roundtrip (n : ℕ) (h : n < 197) :
    parseVolume (JSVal.jstr (numToString ((n : ℚ) / 2 - 80))) = some ((n : ℚ) / 2) := by
  revert h
  revert n
  set_option maxRecDepth 100000 in with_unfolding_all decide

/-- Witness for C1 at `n = 101`, i.e. display value 50.5, whose decibel
report is `"-29.5"`. -/
theorem c1_db_roundtrip_witness :
    (101 : ℕ) < 197 ∧
      parseVolume (JSVal.jstr (numToString ((101 : ℚ) / 2 - 80))) =
        some ((101 : ℚ) / 2) :=
  ⟨by decide, c1_db_roundtrip 101 (by decide)⟩

/-- Claim C3, counterexample: nothing in `setVolume`/`formatVolume` (nor
in `handleSetVolume`) constrains the request to `[0, 98]`: the display
value encoded for a request of 150 is 150 itself, outside the range, and
the command sent is `MV150`. -/
theorem c3_range_counterexample :
    sentDisplayValue 150 = 150 ∧ ¬ sentDisplayValue 150 ≤ 98 ∧
      setVolumeCommand 150 = "MV150" := by
  refine ⟨?_, ?_, ?_⟩ <;> with_unfolding_all decide

/-- Claim C3, amended: the value encoded by an absolute volume request is
the requested display value rounded to the nearest 0.5 (a half-step
within a quarter of the request), and the single command sent is `MV`
followed by the formatted token; no clamping to `[0, 98]` is applied —
out-of-range requests are encoded unchanged. -/
theorem c3_rounded_unclamped (value : ℚ) :
    setVolumeCommand value = "MV" ++ formatVolume value ∧
      |sentDisplayValue value - value| ≤ 1 / 4 ∧
      (2 * sentDisplayValue value).den = 1 := by
  refine ⟨rfl, ?_, ?_⟩
  · rw [abs_le, sentDisplayValue, jsRound]
    have hle : (⌊value * 2 + 1 / 2⌋ : ℚ) ≤ value * 2 + 1 / 2 :=
      Int.floor_le _
    have hgt : value * 2 + 1 / 2 - 1 < (⌊value * 2 + 1 / 2⌋ : ℚ) :=
      Int.sub_one_lt_floor _
    constructor <;> linarith
  · have h2 : (2 : ℚ) * sentDisplayValue value = (jsRound (value * 2) : ℚ) := by
      rw [sentDisplayValue]
      ring
    rw [h2]
    exact Rat.den_intCast _

/-- Claim C7: a failed poll (transport error, non-ok status, or parse
throw) makes `getStatus` emit exactly one `error` notification, return
`null`, and leave the whole client state — cached `currentVolume`,
`currentMute`, and the recurring `pollInterval` handle — untouched, so
the polling loop continues on its schedule. -/
theorem c7_poll_failure_isolated (st : ClientState) :
    getStatus st PollInput.failure = (st, [ClientEvent.errorEvent], none) :=
  rfl

/-- Claim C2, divergence witness in the code: `getStatus` never consults
the `shouldSuppressUpdates` callback (and volume-control.js line 61
installs one that always returns `false`), so even with the suppression
callback reporting an active window, a poll whose decibel report -25
(display 55) differs from the cached volume 50 both updates the cache
and emits `volumeChanged 55` — the claim requires the update without the
notification. -/
theorem c2_suppression_ignored :
    (getStatus
        { currentVolume := some 50, currentMute := some false,
          pollInterval := some 0, shouldSuppressUpdates := true }
        (PollInput.item
          { masterVolume := some (JSVal.jnum (-25)),
            mute := some (JSVal.jstr "off"),
            power := some (JSVal.jstr "ON") })).2.1 =
        [ClientEvent.volumeChanged 55] ∧
      (getStatus
        { currentVolume := some 50, currentMute := some false,
          pollInterval := some 0, shouldSuppressUpdates := true }
        (PollInput.item
          { masterVolume := some (JSVal.jnum (-25)),
            mute := some (JSVal.jstr "off"),
            power := some (JSVal.jstr "ON") })).1.currentVolume = some 55 := by
  refine ⟨?_, ?_⟩ <;> with_unfolding_all decide

/-- Claim C10: every falsy volume token — `null`, `undefined`, the empty
string, and the number 0 — makes `parseVolume` return `null` rather than
a display value; in particular a status response whose `MasterVolume`
field is the number 0 (0 dB, which would be display value 80) is treated
as unknown by `getStatus`: the cached volume is not updated and no
`volumeChanged` notification fires for it. -/
theorem c10_falsy_volume_unknown (st : ClientState) (mu pw : Option JSVal) :
    parseVolume JSVal.jnull = none ∧
      parseVolume JSVal.jundef = none ∧
      parseVolume (JSVal.jstr "") = none ∧
      parseVolume (JSVal.jnum 0) = none ∧
      (getStatus st (PollInput.item
          { masterVolume := some (JSVal.jnum 0), mute := mu,
            power := pw })).1.currentVolume = st.currentVolume ∧
      ∀ v : ℚ, ClientEvent.volumeChanged v ∉
        (getStatus st (PollInput.item
          { masterVolume := some (JSVal.jnum 0), mute := mu,
            power := pw })).2.1 := by
  have hz : parseVolume (JSVal.jnum 0) = none := by with_unfolding_all decide
  refine ⟨rfl, rfl, rfl, hz, ?_, ?_⟩
  · simp only [getStatus, Option.getD_some, hz]
    split <;> rfl
  · intro v
    simp only [getStatus, Option.getD_some, hz]
    split <;> simp

/-- Claim C6: when the awaited device command of an absolute or relative
request throws (non-success HTTP status or transport timeout), the
debounce-timer body applies no optimistic update — the client's cached
volume is unchanged and nothing is pushed to the host-visible state —
the failure is logged, and exactly one command was sent, with no retry. -/
theorem c6_command_failure_atomic (mode : VolumeMode) (value : ℚ)
    (cv : Option ℚ) (hc : Bool)
    (hmode : mode = VolumeMode.absolute ∨ mode = VolumeMode.relative) :
    (fireVolumeTimer mode value cv false hc).clientVolume = cv ∧
      (∀ v : ℚ, CoordAction.updateRoonVolume v ∉
        (fireVolumeTimer mode value cv false hc).actions) ∧
      CoordAction.logError ∈ (fireVolumeTimer mode value cv false hc).actions ∧
      commandsOf (fireVolumeTimer mode value cv false hc).actions =
        [setVolumeCommand (fireTarget mode value cv)] := by
  rcases hmode with h | h <;> subst h <;>
    simp [fireVolumeTimer, commitTarget, fireTarget, commandsOf]

/-- Witness for C6: an absolute request for 45 whose command fails, with
cached volume 30 and a registered Roon control. -/
theorem c6_command_failure_atomic_witness :
    (VolumeMode.absolute = VolumeMode.absolute ∨
        VolumeMode.absolute = VolumeMode.relative) ∧
      ((fireVolumeTimer VolumeMode.absolute 45 (some 30) false true).clientVolume =
          some 30 ∧
        (∀ v : ℚ, CoordAction.updateRoonVolume v ∉
          (fireVolumeTimer VolumeMode.absolute 45 (some 30) false true).actions) ∧
        CoordAction.logError ∈
          (fireVolumeTimer VolumeMode.absolute 45 (some 30) false true).actions ∧
        commandsOf (fireVolumeTimer VolumeMode.absolute 45 (some 30) false true).actions =
          [setVolumeCommand (fireTarget VolumeMode.absolute 45 (some 30))]) :=
  ⟨Or.inl rfl,
    c6_command_failure_atomic VolumeMode.absolute 45 (some 30) true (Or.inl rfl)⟩

/-- Claim C8: a `relative_step` request with a positive value whose
command succeeds performs exactly the up-command followed by arming the
500 ms status poll; the client's cached volume is untouched and no value
is pushed to the host-visible state before that poll. -/
theorem c8_step_mode (value : ℚ) (cv : Option ℚ) (hc : Bool)
    (hpos : 0 < value) :
    (fireVolumeTimer VolumeMode.relative_step value cv true hc).actions =
        [CoordAction.deviceCommand "MVUP", CoordAction.scheduleStatusPoll 500] ∧
      (fireVolumeTimer VolumeMode.relative_step value cv true hc).clientVolume = cv ∧
      ∀ v : ℚ, CoordAction.updateRoonVolume v ∉
        (fireVolumeTimer VolumeMode.relative_step value cv true hc).actions := by
  simp [fireVolumeTimer, hpos]

/-- Witness for C8: a step of +1 with cached volume 40. -/
theorem c8_step_mode_witness :
    (0 : ℚ) < 1 ∧
      ((fireVolumeTimer VolumeMode.relative_step 1 (some 40) true true).actions =
          [CoordAction.deviceCommand "MVUP", CoordAction.scheduleStatusPoll 500] ∧
        (fireVolumeTimer VolumeMode.relative_step 1 (some 40) true true).clientVolume =
          some 40 ∧
        ∀ v : ℚ, CoordAction.updateRoonVolume v ∉
          (fireVolumeTimer VolumeMode.relative_step 1 (some 40) true true).actions) :=
  ⟨zero_lt_one, c8_step_mode 1 (some 40) true zero_lt_one⟩

/-- Claim C4: any burst of absolute requests for the same index followed
by a single timer expiry produces exactly one device command, carrying
the most recent value — every earlier pending request is replaced, never
queued. -/
theorem c4_debounce_coalescing (st : CoordState) (i : ℕ) (vs : List ℚ)
    (vlast : ℚ) (ok hc : Bool) :
    deviceCommands (runCoord st
        ((vs ++ [vlast]).map (fun v => CoordEvent.request i VolumeMode.absolute v) ++
          [CoordEvent.timerElapse i ok hc])).2 =
      [setVolumeCommand vlast] := by
  induction vs generalizing st with
  | nil =>
    simp only [List.nil_append, List.map_cons, List.map_nil, List.cons_append,
      List.nil_append, runCoord, stepCoord, List.find?_cons, beq_self_eq_true]
    cases ok <;> cases hc <;>
      simp [deviceCommands, commandsOf, fireVolumeTimer, commitTarget]
  | cons v vs ih =>
    simp only [List.cons_append, List.map_cons, runCoord]
    have hstep : (stepCoord st (CoordEvent.request i VolumeMode.absolute v)).2 = [] := rfl
    rw [hstep]
    simp only [List.nil_append]
    exact ih _

theorem pendingLive_step (st : CoordState) (e : CoordEvent)
    (h : PendingLive st) : PendingLive (stepCoord st e).1 := by
  cases e with
  | request i m v =>
    intro p hp
    simp only [stepCoord] at hp ⊢
    rcases List.mem_cons.mp hp with h1 | h1
    · subst h1; rfl
    · exact h p (List.mem_of_mem_filter h1)
  | reconfigure =>
    intro p hp
    simp only [stepCoord] at hp
    simp at hp
  | timerElapse i ok hc =>
    simp only [stepCoord]
    split
    · exact h
    · intro q hq
      exact h q (List.mem_of_mem_filter hq)

theorem outputs_live_step (st : CoordState) (e : CoordEvent)
    (h : PendingLive st) :
    ∀ o ∈ (stepCoord st e).2, o.clientGen = o.liveGen := by
  cases e with
  | request i m v => intro o ho; simp [stepCoord] at ho
  | reconfigure => intro o ho; simp [stepCoord] at ho
  | timerElapse i ok hc =>
    intro o ho
    simp only [stepCoord] at ho
    split at ho
    · simp at ho
    · next p hfind =>
      rcases List.mem_map.mp ho with ⟨a, _, rfl⟩
      have hp : p ∈ st.pending := List.mem_of_find?_eq_some hfind
      simpa using h p hp

theorem runCoord_outputs_live (evs : List CoordEvent) (st : CoordState)
    (h : PendingLive st) :
    ∀ o ∈ (runCoord st evs).2, o.clientGen = o.liveGen := by
  induction evs generalizing st with
  | nil => intro o ho; simp [runCoord] at ho
  | cons e es ih =>
    intro o ho
    simp only [runCoord] at ho
    rcases List.mem_append.mp ho with h1 | h1
    · exact outputs_live_step st e h o h1
    · exact ih (stepCoord st e).1 (pendingLive_step st e h) o h1

/-- Claim C9: starting from a freshly initialized coordinator (empty
timer map), every effect a debounce timer ever performs runs against a
client of the generation that is current when it runs — never against a
destroyed, earlier-generation client — because `reconfigure` (destroy +
rebuild) cancels every pending timer before the new generation is
built. -/
theorem c9_reinit_safety (g0 : ℕ) (cv : ℕ → Option ℚ) (evs : List CoordEvent)
    (o : TaggedAction) (ho : o ∈ (runCoord ⟨g0, [], cv⟩ evs).2) :
    o.clientGen = o.liveGen :=
  runCoord_outputs_live evs ⟨g0, [], cv⟩ (by intro p hp; simp at hp) o ho

/-- Witness for C9: a request is armed and its timer fires without an
intervening reconfiguration; the one tagged effect runs against the
still-current generation 0 client. -/
theorem c9_reinit_safety_witness :
    ((⟨0, 0, CoordAction.logUnknownMode⟩ : TaggedAction) ∈
        (runCoord ⟨0, [], fun _ => none⟩
          [CoordEvent.request 0 VolumeMode.unknownMode 0,
            CoordEvent.timerElapse 0 true true]).2) ∧
      (⟨0, 0, CoordAction.logUnknownMode⟩ : TaggedAction).clientGen =
        (⟨0, 0, CoordAction.logUnknownMode⟩ : TaggedAction).liveGen :=
  ⟨by decide,
    c9_reinit_safety 0 (fun _ => none)
      [CoordEvent.request 0 VolumeMode.unknownMode 0,
        CoordEvent.timerElapse 0 true true]
      ⟨0, 0, CoordAction.logUnknownMode⟩ (by decide)⟩

end Marantz
